import Mathlib

/-!
Verification of the netMonitor traffic accountant (src/main.go).

Embedding conventions:
* Go `uint64` arithmetic is modelled as `Nat` taken modulo `2^64`
  (`W` below); wrapping addition and subtraction are `u64add`/`u64sub`.
* Go `float64` threshold arithmetic is modelled by exact rationals.
* Go `time.Time` instants are modelled as a calendar date plus a
  time-of-day offset (`tod = 0` is midnight); the local zone is taken
  to coincide with the zone used to parse persisted date strings.
* The persisted `LastReset` string is modelled by its parse result:
  `none` models a string that fails to parse with layout `2006-01-02`.
-/

/-- The size of the uint64 value space, `2 ^ 64`. -/
def W : Nat := 18446744073709551616

/-- Go uint64 addition (wrapping). -/
def u64add (a b : Nat) : Nat := (a + b) % W

/-- Go uint64 subtraction (wrapping), for representable `a b < 2^64`. -/
def u64sub (a b : Nat) : Nat := (a + W - b) % W

/-- A calendar date, no time component. -/
structure Date where
  year : Int
  month : Nat
  day : Nat
deriving DecidableEq

/-- An instant: a date plus a time-of-day offset; `tod = 0` is midnight. -/
structure Instant where
  date : Date
  tod : Nat
deriving DecidableEq

/-- `NetStats` from src/main.go: one raw counter sample. -/
structure NetStats where
  receiveBytes : Nat
  transmitBytes : Nat
deriving DecidableEq

/-- `Statistics` from src/main.go. `lastReset` is the parse result of
the persisted date string (`none` = unparseable). -/
structure Statistics where
  totalReceive : Nat
  totalTransmit : Nat
  lastReceive : Nat
  lastTransmit : Nat
  lastReset : Option Date
deriving DecidableEq

/-- `Comparison` from src/main.go, float64 fields as exact rationals. -/
structure Comparison where
  category : String
  limit : ℚ
  threshold : ℚ
  ratio : ℚ
deriving DecidableEq

/-- `TelegramMessage` from src/main.go. -/
structure TelegramMessage where
  thresholdStatus : Bool
  ratioStatus : Bool
  token : String
  chatID : String
deriving DecidableEq

/-- `GotifyMessage` from src/main.go. -/
structure GotifyMessage where
  thresholdStatus : Bool
  ratioStatus : Bool
  url : String
  appToken : String
deriving DecidableEq

/-- `Message` from src/main.go. -/
structure Message where
  service : String
  telegram : TelegramMessage
  gotify : GotifyMessage
deriving DecidableEq

/-- `Config` from src/main.go. -/
structure Config where
  device : String
  iface : String
  interval : Nat
  startDay : Nat
  statistics : Statistics
  comparison : Comparison
  message : Message
deriving DecidableEq

/-- `bytesToGB` from src/main.go. -/
def bytesToGB : Nat := 1024 * 1024 * 1024

/-- The accumulation step of one tick of the main loop
(src/main.go lines 443-459): fold the stale baseline into the total
when the raw counter dropped (reboot detected), then unconditionally
add the wrapping delta, then advance the baseline. -/
def accumulate (st : Statistics) (s : NetStats) : Statistics :=
  let tr0 := if s.receiveBytes < st.lastReceive
    then u64add st.totalReceive st.lastReceive else st.totalReceive
  let tt0 := if s.transmitBytes < st.lastTransmit
    then u64add st.totalTransmit st.lastTransmit else st.totalTransmit
  { totalReceive := u64add tr0 (u64sub s.receiveBytes st.lastReceive)
    totalTransmit := u64add tt0 (u64sub s.transmitBytes st.lastTransmit)
    lastReceive := s.receiveBytes
    lastTransmit := s.transmitBytes
    lastReset := st.lastReset }

/-- One tick with no reset on the receive counter adds the exact delta. -/
theorem accumulate_noReset_recv (st : Statistics) (x : NetStats)
    (hL : st.lastReceive ≤ x.receiveBytes) (hx : x.receiveBytes < W) :
    (accumulate st x).totalReceive
      = (st.totalReceive + (x.receiveBytes - st.lastReceive)) % W := by
  simp only [accumulate]
  rw [if_neg (by omega)]
  simp only [u64add, u64sub, W] at *
  omega

/-- One tick with no reset on the transmit counter adds the exact delta. -/
theorem accumulate_noReset_trans (st : Statistics) (x : NetStats)
    (hL : st.lastTransmit ≤ x.transmitBytes) (hx : x.transmitBytes < W) :
    (accumulate st x).totalTransmit
      = (st.totalTransmit + (x.transmitBytes - st.lastTransmit)) % W := by
  simp only [accumulate]
  rw [if_neg (by omega)]
  simp only [u64add, u64sub, W] at *
  omega

/-- C2: on the tick where a counter reset is detected
(`sample.value < last_value`), the reset fold (`total += last_value`)
followed by the unconditional wrapping delta
(`total += sample.value - last_value`) nets to exactly
`total += sample.value` in uint64 arithmetic, for the receive and
transmit counters independently. -/
theorem reset_net_effect (st : Statistics) (s : NetStats)
    (hT : st.totalReceive < W) (hL : st.lastReceive < W)
    (hTt : st.totalTransmit < W) (hLt : st.lastTransmit < W) :
    (s.receiveBytes < st.lastReceive →
      (accumulate st s).totalReceive = (st.totalReceive + s.receiveBytes) % W) ∧
    (s.transmitBytes < st.lastTransmit →
      (accumulate st s).totalTransmit = (st.totalTransmit + s.transmitBytes) % W) := by
  constructor <;> intro h
  · simp only [accumulate]
    rw [if_pos h]
    simp only [u64add, u64sub, W] at *
    omega
  · simp only [accumulate]
    rw [if_pos h]
    simp only [u64add, u64sub, W] at *
    omega

/-- Witness for `reset_net_effect` at a concrete state and sample. -/
theorem reset_net_effect_witness :
    (accumulate ⟨100, 200, 50, 60, none⟩ ⟨7, 9⟩).totalReceive = (100 + 7) % W ∧
    (accumulate ⟨100, 200, 50, 60, none⟩ ⟨7, 9⟩).totalTransmit = (200 + 9) % W := by
  have h := reset_net_effect ⟨100, 200, 50, 60, none⟩ ⟨7, 9⟩
    (by decide) (by decide) (by decide) (by decide)
  exact ⟨h.1 (by decide), h.2 (by decide)⟩

/-- A state with a pending reset: totals 0, last-observed baselines 10. -/
def stExample : Statistics := ⟨0, 0, 10, 10, none⟩

/-- A raw sample strictly below both baselines of `stExample`. -/
def sExample : NetStats := ⟨5, 5⟩

/-- C1 counterexample: on a reset tick the code does NOT produce
`total_before + last_received_before_reset + sample.received`.
With `total_before = 0`, `last_received = 10`, `sample.received = 5`
(a detected reset), the accumulated total is `5`, not `0 + 10 + 5`. -/
theorem reset_resilience_counterexample :
    sExample.receiveBytes < stExample.lastReceive ∧
    (accumulate stExample sExample).totalReceive = 5 ∧
    (accumulate stExample sExample).totalReceive
      ≠ stExample.totalReceive + stExample.lastReceive + sExample.receiveBytes := by
  refine ⟨by decide, ?_, ?_⟩ <;> decide

/-- C1 amended: on a tick where both counters reset
(`sample.value < last_value`), the accumulation step produces
`total = (total_before + sample.value) % 2^64` for each counter and
advances the baselines to the sample; the residual counted before the
reset is kept, but the traffic between the last sample and the reboot
is lost, so the total is `total_before + sample.value`, not
`total_before + last_value + sample.value`. -/
theorem reset_total_after_tick (st : Statistics) (s : NetStats)
    (hT : st.totalReceive < W) (hL : st.lastReceive < W)
    (hTt : st.totalTransmit < W) (hLt : st.lastTransmit < W)
    (hr : s.receiveBytes < st.lastReceive)
    (ht : s.transmitBytes < st.lastTransmit) :
    (accumulate st s).totalReceive = (st.totalReceive + s.receiveBytes) % W ∧
    (accumulate st s).totalTransmit = (st.totalTransmit + s.transmitBytes) % W ∧
    (accumulate st s).lastReceive = s.receiveBytes ∧
    (accumulate st s).lastTransmit = s.transmitBytes ∧
    (accumulate st s).lastReset = st.lastReset := by
  refine ⟨?_, ?_, rfl, rfl, rfl⟩
  · simp only [accumulate]
    rw [if_pos hr]
    simp only [u64add, u64sub, W] at *
    omega
  · simp only [accumulate]
    rw [if_pos ht]
    simp only [u64add, u64sub, W] at *
    omega

/-- Witness for `reset_total_after_tick` at a concrete state and sample. -/
theorem reset_total_after_tick_witness :
    (accumulate stExample sExample).totalReceive = (0 + 5) % W ∧
    (accumulate stExample sExample).totalTransmit = (0 + 5) % W ∧
    (accumulate stExample sExample).lastReceive = sExample.receiveBytes ∧
    (accumulate stExample sExample).lastTransmit = sExample.transmitBytes ∧
    (accumulate stExample sExample).lastReset = stExample.lastReset :=
  reset_total_after_tick stExample sExample (by decide) (by decide)
    (by decide) (by decide) (by decide) (by decide)

/-- `true` when a list of samples never makes the receive counter drop,
starting from the given baseline, and every value is representable. -/
def noResetRecv (base : Nat) : List NetStats → Bool
  | [] => true
  | x :: xs =>
      decide (base ≤ x.receiveBytes) && decide (x.receiveBytes < W)
        && noResetRecv x.receiveBytes xs

/-- Sum of the consecutive receive deltas of a sample list, starting
from the given baseline. -/
def sumDeltasRecv (base : Nat) : List NetStats → Nat
  | [] => 0
  | x :: xs => (x.receiveBytes - base) + sumDeltasRecv x.receiveBytes xs

/-- The final receive value of a sample list (the baseline if empty). -/
def finalRecv (base : Nat) : List NetStats → Nat
  | [] => base
  | x :: xs => finalRecv x.receiveBytes xs

theorem accrual_aux (samples : List NetStats) :
    ∀ st : Statistics, st.totalReceive < W →
      noResetRecv st.lastReceive samples = true →
      (samples.foldl accumulate st).totalReceive
        = (st.totalReceive + sumDeltasRecv st.lastReceive samples) % W := by
  induction samples with
  | nil =>
      intro st hT _
      simp [sumDeltasRecv, Nat.mod_eq_of_lt hT]
  | cons x xs ih =>
      intro st hT hchain
      simp only [noResetRecv, Bool.and_eq_true, decide_eq_true_eq] at hchain
      obtain ⟨⟨hbase, hx⟩, hrest⟩ := hchain
      have hstep := accumulate_noReset_recv st x hbase hx
      have hlast : (accumulate st x).lastReceive = x.receiveBytes := rfl
      have hT1 : (accumulate st x).totalReceive < W := by
        rw [hstep]; exact Nat.mod_lt _ (by simp [W])
      have := ih (accumulate st x) hT1 (by rw [hlast]; exact hrest)
      simp only [List.foldl_cons, this, hstep, hlast, sumDeltasRecv]
      simp only [W] at *
      omega

theorem sumDeltasRecv_eq (samples : List NetStats) :
    ∀ base : Nat, noResetRecv base samples = true →
      sumDeltasRecv base samples = finalRecv base samples - base ∧
        base ≤ finalRecv base samples := by
  induction samples with
  | nil => intro base _; simp [sumDeltasRecv, finalRecv]
  | cons x xs ih =>
      intro base h
      simp only [noResetRecv, Bool.and_eq_true, decide_eq_true_eq] at h
      obtain ⟨⟨hb, _⟩, hr⟩ := h
      obtain ⟨h1, h2⟩ := ih x.receiveBytes hr
      simp only [sumDeltasRecv, finalRecv]
      omega

/-- C3: iterating the accumulation step over a sequence of samples
whose receive values never drop (no resets), starting at or above the
baseline, yields a total equal to the initial total plus the sum of
the consecutive deltas, which telescopes to the initial total plus the
final receive value minus the initial baseline (in uint64 arithmetic). -/
theorem monotonic_accrual (st : Statistics) (samples : List NetStats)
    (hT : st.totalReceive < W)
    (hchain : noResetRecv st.lastReceive samples = true) :
    (samples.foldl accumulate st).totalReceive
      = (st.totalReceive + sumDeltasRecv st.lastReceive samples) % W ∧
    (samples.foldl accumulate st).totalReceive
      = (st.totalReceive + (finalRecv st.lastReceive samples - st.lastReceive)) % W := by
  have h1 := accrual_aux samples st hT hchain
  have h2 := sumDeltasRecv_eq samples st.lastReceive hchain
  exact ⟨h1, by rw [h1, h2.1]⟩

/-- Witness for `monotonic_accrual` on a three-sample run. -/
theorem monotonic_accrual_witness :
    (([⟨3, 0⟩, ⟨8, 1⟩, ⟨20, 2⟩] : List NetStats).foldl accumulate
        ⟨100, 0, 3, 0, none⟩).totalReceive
      = (100 + sumDeltasRecv 3 [⟨3, 0⟩, ⟨8, 1⟩, ⟨20, 2⟩]) % W ∧
    (([⟨3, 0⟩, ⟨8, 1⟩, ⟨20, 2⟩] : List NetStats).foldl accumulate
        ⟨100, 0, 3, 0, none⟩).totalReceive
      = (100 + (finalRecv 3 [⟨3, 0⟩, ⟨8, 1⟩, ⟨20, 2⟩] - 3)) % W :=
  monotonic_accrual ⟨100, 0, 3, 0, none⟩ [⟨3, 0⟩, ⟨8, 1⟩, ⟨20, 2⟩]
    (by decide) (by decide)

/-- Gregorian leap-year rule, as Go's time package applies it. -/
def isLeap (y : Int) : Bool :=
  (decide (y % 4 = 0) && decide (y % 100 ≠ 0)) || decide (y % 400 = 0)

/-- Number of days in a month, the value Go's date normalization
produces for the last day of the month in `checkReset`. -/
def daysInMonth (y : Int) (m : Nat) : Nat :=
  match m with
  | 2 => if isLeap y then 29 else 28
  | 4 => 30
  | 6 => 30
  | 9 => 30
  | 11 => 30
  | _ => 31

/-- Strict order on dates (midnight-to-midnight `Before`). -/
def dateLtB (a b : Date) : Bool :=
  decide (a.year < b.year)
    || (decide (a.year = b.year)
        && (decide (a.month < b.month)
            || (decide (a.month = b.month) && decide (a.day < b.day))))

/-- Strict order on instants (Go `time.Time.Before`/`After`). -/
def instantLtB (a b : Instant) : Bool :=
  dateLtB a.date b.date || (decide (a.date = b.date) && decide (a.tod < b.tod))

/-- `checkReset` from src/main.go lines 116-146: parse failure of the
persisted last-reset date forces a reset; otherwise clamp the
configured start day to the last day of the current month, build the
reset date, and reset iff the last reset was strictly before it and
the current instant is strictly after its midnight. -/
def checkReset (config : Config) (now : Instant) : Bool :=
  match config.statistics.lastReset with
  | none => true
  | some lastReset =>
      let lastDayOfMonth := daysInMonth now.date.year now.date.month
      let resetDay :=
        if lastDayOfMonth < config.startDay then lastDayOfMonth else config.startDay
      let resetDate : Date := ⟨now.date.year, now.date.month, resetDay⟩
      dateLtB lastReset resetDate && instantLtB ⟨resetDate, 0⟩ now

/-- The reset date `checkReset` computes for the month of `d`:
the configured start day clamped down to the month's last day. -/
def resetDateFor (d : Date) (startDay : Nat) : Date :=
  ⟨d.year, d.month, min startDay (daysInMonth d.year d.month)⟩

/-- `resetStatistics` from src/main.go lines 195-222: send the cycle
summary (best-effort; the delivery outcome is the ignored Boolean),
zero the totals, stamp today as the last reset, and clear all four
alert flags. The baselines `lastReceive`/`lastTransmit` are untouched. -/
def resetStatistics (config : Config) (today : Date)
    (_summaryDelivered : Bool) : Config :=
  { config with
    statistics :=
      { config.statistics with
        totalReceive := 0
        totalTransmit := 0
        lastReset := some today }
    message :=
      { config.message with
        telegram :=
          { config.message.telegram with
            thresholdStatus := false
            ratioStatus := false }
        gotify :=
          { config.message.gotify with
            thresholdStatus := false
            ratioStatus := false } } }

/-- The threshold-alert flag of the active channel, as read at the top
of `performComparison` (unknown service reads Go's zero value). -/
def activeThresholdFlag (config : Config) : Bool :=
  if config.message.service = "telegram" then
    config.message.telegram.thresholdStatus
  else if config.message.service = "gotify" then
    config.message.gotify.thresholdStatus
  else false

/-- The shutdown-warning flag of the active channel, as read at the top
of `performComparison` (unknown service reads Go's zero value). -/
def activeRatioFlag (config : Config) : Bool :=
  if config.message.service = "telegram" then
    config.message.telegram.ratioStatus
  else if config.message.service = "gotify" then
    config.message.gotify.ratioStatus
  else false

/-- C7: closing the cycle zeroes both totals, stamps today as the
cycle start date, and clears both alert flags of the active channel,
regardless of whether the summary notification was delivered. -/
theorem closeCycle_resets (config : Config) (today : Date) (delivered : Bool) :
    (resetStatistics config today delivered).statistics.totalReceive = 0 ∧
    (resetStatistics config today delivered).statistics.totalTransmit = 0 ∧
    (resetStatistics config today delivered).statistics.lastReset = some today ∧
    activeThresholdFlag (resetStatistics config today delivered) = false ∧
    activeRatioFlag (resetStatistics config today delivered) = false := by
  refine ⟨rfl, rfl, rfl, ?_, ?_⟩ <;>
    · simp only [resetStatistics, activeThresholdFlag, activeRatioFlag]
      split <;> [rfl; split <;> rfl]

/-- C10: closing the cycle leaves the raw-counter baselines unchanged
while zeroing the totals, so the first accumulation of the new cycle
attributes exactly the traffic transferred after the boundary. -/
theorem cycle_frame_effect (config : Config) (today : Date) (delivered : Bool)
    (s : NetStats)
    (hr : config.statistics.lastReceive ≤ s.receiveBytes)
    (hrW : s.receiveBytes < W)
    (ht : config.statistics.lastTransmit ≤ s.transmitBytes)
    (htW : s.transmitBytes < W) :
    (resetStatistics config today delivered).statistics.lastReceive
      = config.statistics.lastReceive ∧
    (resetStatistics config today delivered).statistics.lastTransmit
      = config.statistics.lastTransmit ∧
    (accumulate (resetStatistics config today delivered).statistics s).totalReceive
      = s.receiveBytes - config.statistics.lastReceive ∧
    (accumulate (resetStatistics config today delivered).statistics s).totalTransmit
      = s.transmitBytes - config.statistics.lastTransmit := by
  refine ⟨rfl, rfl, ?_, ?_⟩
  · rw [accumulate_noReset_recv (resetStatistics config today delivered).statistics s hr hrW]
    simp only [resetStatistics, W] at *
    omega
  · rw [accumulate_noReset_trans (resetStatistics config today delivered).statistics s ht htW]
    simp only [resetStatistics, W] at *
    omega

/-- A mid-cycle config used to instantiate the frame-effect theorem. -/
def cfgFrame : Config :=
  { device := "vps"
    iface := "eth0"
    interval := 600
    startDay := 5
    statistics := ⟨900, 800, 60, 40, some ⟨2024, 1, 5⟩⟩
    comparison := ⟨"download", 100, 8 / 10, 95 / 100⟩
    message := ⟨"telegram", ⟨true, false, "tok", "chat"⟩,
      ⟨false, false, "url", "app"⟩⟩ }

/-- Witness for `cycle_frame_effect` at a concrete config and sample. -/
theorem cycle_frame_effect_witness :
    (resetStatistics cfgFrame ⟨2024, 2, 5⟩ false).statistics.lastReceive
      = cfgFrame.statistics.lastReceive ∧
    (resetStatistics cfgFrame ⟨2024, 2, 5⟩ false).statistics.lastTransmit
      = cfgFrame.statistics.lastTransmit ∧
    (accumulate (resetStatistics cfgFrame ⟨2024, 2, 5⟩ false).statistics
        ⟨70, 45⟩).totalReceive = 70 - cfgFrame.statistics.lastReceive ∧
    (accumulate (resetStatistics cfgFrame ⟨2024, 2, 5⟩ false).statistics
        ⟨70, 45⟩).totalTransmit = 45 - cfgFrame.statistics.lastTransmit :=
  cycle_frame_effect cfgFrame ⟨2024, 2, 5⟩ false ⟨70, 45⟩
    (by decide) (by decide) (by decide) (by decide)

/-- A config whose last reset is recorded as 2024-01-05 with start day 5. -/
def cfgJan : Config :=
  { cfgFrame with
    startDay := 5
    statistics := ⟨900, 800, 60, 40, some ⟨2024, 1, 5⟩⟩ }

/-- C4 counterexample: at the exact midnight instant of the reset date
the code returns `false` although the recorded date (2024-01-05) is
strictly before the reset date (2024-02-05) and the current date is on
the reset date, so the claimed "on or after" reading fails. -/
theorem checkReset_midnight_counterexample :
    resetDateFor ⟨2024, 2, 5⟩ cfgJan.startDay = ⟨2024, 2, 5⟩ ∧
    cfgJan.statistics.lastReset = some ⟨2024, 1, 5⟩ ∧
    dateLtB ⟨2024, 1, 5⟩ ⟨2024, 2, 5⟩ = true ∧
    dateLtB ⟨2024, 2, 5⟩ ⟨2024, 2, 5⟩ = false ∧
    checkReset cfgJan ⟨⟨2024, 2, 5⟩, 0⟩ = false := by
  refine ⟨?_, rfl, ?_, ?_, ?_⟩ <;> decide

/-- C4 amended: for a configured start day (1-31), `checkReset` returns
true iff the persisted date fails to parse, or the recorded date is
strictly before the reset date (current year/month, start day clamped
down to the month's last day) and the current instant is strictly
after the reset date's midnight — i.e. the current date is strictly
after the reset date, or equal to it with a nonzero time of day. -/
theorem checkReset_characterization (config : Config) (now : Instant)
    (h1 : 1 ≤ config.startDay) (h31 : config.startDay ≤ 31) :
    checkReset config now = true ↔
      match config.statistics.lastReset with
      | none => True
      | some lr =>
          dateLtB lr (resetDateFor now.date config.startDay) = true ∧
          (dateLtB (resetDateFor now.date config.startDay) now.date = true ∨
            (resetDateFor now.date config.startDay = now.date ∧ 0 < now.tod)) := by
  cases h : config.statistics.lastReset with
  | none => simp [checkReset, h]
  | some lr =>
      have hmin : min config.startDay (daysInMonth now.date.year now.date.month)
          = if daysInMonth now.date.year now.date.month < config.startDay
            then daysInMonth now.date.year now.date.month else config.startDay := by
        rw [min_def]; split <;> split <;> omega
      simp only [checkReset, resetDateFor, h, hmin, instantLtB,
        Bool.and_eq_true, Bool.or_eq_true, decide_eq_true_eq]

/-- A config with start day 31 and a recorded reset early in April,
to exercise the clamp in a 30-day month. -/
def cfgClamp : Config :=
  { cfgFrame with
    startDay := 31
    statistics := ⟨900, 800, 60, 40, some ⟨2025, 4, 1⟩⟩ }

/-- Witness for `checkReset_characterization`: start day 31 in April
clamps the reset date to April 30. -/
theorem checkReset_characterization_witness :
    checkReset cfgClamp ⟨⟨2025, 4, 30⟩, 500⟩ = true ↔
      match cfgClamp.statistics.lastReset with
      | none => True
      | some lr =>
          dateLtB lr (resetDateFor ⟨2025, 4, 30⟩ cfgClamp.startDay) = true ∧
          (dateLtB (resetDateFor ⟨2025, 4, 30⟩ cfgClamp.startDay) ⟨2025, 4, 30⟩ = true ∨
            (resetDateFor ⟨2025, 4, 30⟩ cfgClamp.startDay = ⟨2025, 4, 30⟩ ∧ (0 : Nat) < 500)) :=
  checkReset_characterization cfgClamp ⟨⟨2025, 4, 30⟩, 500⟩ (by decide) (by decide)

/-- `dateLtB` is asymmetric. -/
theorem dateLtB_asymm (a b : Date) (h1 : dateLtB a b = true)
    (h2 : dateLtB b a = true) : False := by
  simp only [dateLtB, Bool.or_eq_true, Bool.and_eq_true, decide_eq_true_eq] at h1 h2
  rcases h1 with h | ⟨e, h | ⟨e2, h⟩⟩ <;> rcases h2 with g | ⟨f, g | ⟨f2, g⟩⟩ <;> omega

/-- `dateLtB` is irreflexive. -/
theorem dateLtB_irrefl (a : Date) : dateLtB a a = false := by
  simp [dateLtB]

/-- C8: `checkReset` is a pure function of the config and the clock, so
a second call later the same day still returns true when an earlier one
did; and after `resetStatistics` stamps today as the last reset, any
further call that day returns false. -/
theorem shouldReset_idempotent_then_false (config : Config) (d : Date)
    (s1 s2 : Nat) (delivered : Bool) (hs : s1 ≤ s2)
    (h1 : checkReset config ⟨d, s1⟩ = true) :
    checkReset config ⟨d, s2⟩ = true ∧
    checkReset (resetStatistics config d delivered) ⟨d, s2⟩ = false := by
  constructor
  · unfold checkReset at h1 ⊢
    cases h : config.statistics.lastReset with
    | none => rfl
    | some lr =>
        rw [h] at h1
        simp only [instantLtB, Bool.and_eq_true, Bool.or_eq_true,
          decide_eq_true_eq] at h1 ⊢
        obtain ⟨ha, hb | ⟨hc, hd⟩⟩ := h1
        · exact ⟨ha, Or.inl hb⟩
        · exact ⟨ha, Or.inr ⟨hc, by omega⟩⟩
  · rw [Bool.eq_false_iff]
    intro hcontra
    unfold checkReset resetStatistics at hcontra
    simp only [instantLtB, Bool.and_eq_true, Bool.or_eq_true,
      decide_eq_true_eq] at hcontra
    obtain ⟨hlt, hgt | ⟨heq, _⟩⟩ := hcontra
    · exact dateLtB_asymm _ _ hlt hgt
    · rw [heq, dateLtB_irrefl] at hlt
      exact Bool.false_ne_true hlt

/-- Witness for `shouldReset_idempotent_then_false` on the boundary
crossing from 2024-01-05 to 2024-02-05. -/
theorem shouldReset_idempotent_then_false_witness :
    checkReset cfgJan ⟨⟨2024, 2, 5⟩, 2⟩ = true ∧
    checkReset (resetStatistics cfgJan ⟨2024, 2, 5⟩ false) ⟨⟨2024, 2, 5⟩, 2⟩ = false :=
  shouldReset_idempotent_then_false cfgJan ⟨2024, 2, 5⟩ 1 2 false
    (by decide) (by decide)

/-- The usage value `performComparison` computes from the configured
category (src/main.go lines 304-321), in GB; `none` is the invalid
category error. The uint64 sum in the `upload+download` case wraps. -/
def usageValue (config : Config) : Option ℚ :=
  match config.comparison.category with
  | "download" => some ((config.statistics.totalReceive : ℚ) / (bytesToGB : ℚ))
  | "upload" => some ((config.statistics.totalTransmit : ℚ) / (bytesToGB : ℚ))
  | "upload+download" =>
      some ((((config.statistics.totalReceive + config.statistics.totalTransmit) % W : Nat) : ℚ)
        / (bytesToGB : ℚ))
  | "anymax" =>
      some (max ((config.statistics.totalReceive : ℚ) / (bytesToGB : ℚ))
        ((config.statistics.totalTransmit : ℚ) / (bytesToGB : ℚ)))
  | _ => none

/-- Success of `sendMessage` (src/main.go lines 276-295): an unknown
service always fails; a known channel succeeds iff the transport
delivered (the Boolean oracle). -/
def sendMessageOk (config : Config) (delivered : Bool) : Bool :=
  if config.message.service = "telegram" then delivered
  else if config.message.service = "gotify" then delivered
  else false

/-- Set the threshold flag of the active channel
(src/main.go lines 343-348). -/
def setThresholdFlag (config : Config) : Config :=
  if config.message.service = "telegram" then
    { config with message := { config.message with telegram :=
        { config.message.telegram with thresholdStatus := true } } }
  else if config.message.service = "gotify" then
    { config with message := { config.message with gotify :=
        { config.message.gotify with thresholdStatus := true } } }
  else config

/-- Set the shutdown-warning flag of the active channel
(src/main.go lines 365-370). -/
def setRatioFlag (config : Config) : Config :=
  if config.message.service = "telegram" then
    { config with message := { config.message with telegram :=
        { config.message.telegram with ratioStatus := true } } }
  else if config.message.service = "gotify" then
    { config with message := { config.message with gotify :=
        { config.message.gotify with ratioStatus := true } } }
  else config

/-- Delivery outcomes the transport would report for each alert on one
tick, were its message sent. -/
structure Oracle where
  thresholdDelivery : Bool
  ratioDelivery : Bool
deriving DecidableEq

/-- Observable outcome of one `performComparison` call: the updated
config, whether `sendMessage` was invoked for each alert, and whether
the post-warning shutdown sequence was reached. -/
structure TickResult where
  cfg : Config
  thresholdAttempt : Bool
  ratioAttempt : Bool
  shutdown : Bool
deriving DecidableEq

/-- `performComparison` from src/main.go lines 304-397: compute the
usage value (`none` aborts the tick with the invalid-category error),
then for each alert whose limit is reached and whose flag is unset,
invoke `sendMessage`; only successful delivery sets the flag, and only
successful delivery of the shutdown warning reaches the shutdown. -/
def performComparison (config : Config) (o : Oracle) : Option TickResult :=
  match usageValue config with
  | none => none
  | some valueInGB =>
      let thresholdLimit := config.comparison.limit * config.comparison.threshold
      let ratioLimit := config.comparison.limit * config.comparison.ratio
      let thresholdStatus := activeThresholdFlag config
      let ratioStatus := activeRatioFlag config
      let thresholdFire := decide (thresholdLimit ≤ valueInGB) && !thresholdStatus
      let cfg1 := if thresholdFire && sendMessageOk config o.thresholdDelivery
        then setThresholdFlag config else config
      let ratioFire := decide (ratioLimit ≤ valueInGB) && !ratioStatus
      let ratioDelivered := ratioFire && sendMessageOk cfg1 o.ratioDelivery
      let cfg2 := if ratioDelivered then setRatioFlag cfg1 else cfg1
      some { cfg := cfg2, thresholdAttempt := thresholdFire,
             ratioAttempt := ratioFire, shutdown := ratioDelivered }

/-- The outcome of one tick's comparison as the main loop sees it: an
invalid-category error is logged and leaves the config untouched with
no attempts and no shutdown. -/
def tickResult (config : Config) (o : Oracle) : TickResult :=
  (performComparison config o).getD
    { cfg := config, thresholdAttempt := false, ratioAttempt := false, shutdown := false }

/-- Setting the threshold flag touches nothing but that flag. -/
theorem setThresholdFlag_preserves (config : Config) :
    (setThresholdFlag config).statistics = config.statistics ∧
    (setThresholdFlag config).comparison = config.comparison ∧
    (setThresholdFlag config).message.service = config.message.service ∧
    activeRatioFlag (setThresholdFlag config) = activeRatioFlag config := by
  by_cases h1 : config.message.service = "telegram"
  · simp [setThresholdFlag, activeRatioFlag, h1]
  · by_cases h2 : config.message.service = "gotify"
    · simp [setThresholdFlag, activeRatioFlag, h1, h2]
    · simp [setThresholdFlag, activeRatioFlag, h1, h2]

/-- Setting the shutdown-warning flag touches nothing but that flag. -/
theorem setRatioFlag_preserves (config : Config) :
    (setRatioFlag config).statistics = config.statistics ∧
    (setRatioFlag config).comparison = config.comparison ∧
    (setRatioFlag config).message.service = config.message.service ∧
    activeThresholdFlag (setRatioFlag config) = activeThresholdFlag config := by
  by_cases h1 : config.message.service = "telegram"
  · simp [setRatioFlag, activeThresholdFlag, h1]
  · by_cases h2 : config.message.service = "gotify"
    · simp [setRatioFlag, activeThresholdFlag, h1, h2]
    · simp [setRatioFlag, activeThresholdFlag, h1, h2]

/-- A failed transport never yields a successful send. -/
theorem sendMessageOk_false (config : Config) :
    sendMessageOk config false = false := by
  simp [sendMessageOk]

/-- `sendMessageOk` depends only on the configured service. -/
theorem sendMessageOk_congr (c1 c2 : Config)
    (h : c1.message.service = c2.message.service) (d : Bool) :
    sendMessageOk c1 d = sendMessageOk c2 d := by
  simp [sendMessageOk, h]

/-- `usageValue` depends only on the statistics and the comparison. -/
theorem usageValue_congr (c1 c2 : Config)
    (hst : c1.statistics = c2.statistics)
    (hcmp : c1.comparison = c2.comparison) :
    usageValue c1 = usageValue c2 := by
  simp [usageValue, hst, hcmp]

/-- `activeRatioFlag` depends only on the service and the flags. -/
theorem activeRatioFlag_congr (c1 c2 : Config)
    (hsvc : c1.message.service = c2.message.service)
    (ht : c1.message.telegram.ratioStatus = c2.message.telegram.ratioStatus)
    (hg : c1.message.gotify.ratioStatus = c2.message.gotify.ratioStatus) :
    activeRatioFlag c1 = activeRatioFlag c2 := by
  simp [activeRatioFlag, hsvc, ht, hg]

/-- `activeThresholdFlag` depends only on the service and the flags. -/
theorem activeThresholdFlag_congr (c1 c2 : Config)
    (hsvc : c1.message.service = c2.message.service)
    (ht : c1.message.telegram.thresholdStatus = c2.message.telegram.thresholdStatus)
    (hg : c1.message.gotify.thresholdStatus = c2.message.gotify.thresholdStatus) :
    activeThresholdFlag c1 = activeThresholdFlag c2 := by
  simp [activeThresholdFlag, hsvc, ht, hg]

/-- C5: an already-set alert flag of the active channel is never
cleared by a comparison tick, and while it is set the notifier is not
invoked again for that alert; a set shutdown-warning flag also means no
shutdown is initiated. -/
theorem at_most_one_alert (config : Config) (o : Oracle) :
    (activeThresholdFlag config = true →
      (tickResult config o).thresholdAttempt = false ∧
      activeThresholdFlag (tickResult config o).cfg = true) ∧
    (activeRatioFlag config = true →
      (tickResult config o).ratioAttempt = false ∧
      activeRatioFlag (tickResult config o).cfg = true ∧
      (tickResult config o).shutdown = false) := by
  cases hu : usageValue config with
  | none => simp [tickResult, performComparison, hu]
  | some v =>
      constructor
      · intro h
        simp only [tickResult, performComparison, hu, h, Bool.not_true,
          Bool.and_false, Bool.false_and, Bool.false_eq_true, if_false,
          Option.getD_some]
        refine ⟨trivial, ?_⟩
        split
        · rw [(setRatioFlag_preserves config).2.2.2]; exact h
        · exact h
      · intro h
        simp only [tickResult, performComparison, hu, h, Bool.not_true,
          Bool.and_false, Bool.false_and, Bool.false_eq_true, if_false,
          Option.getD_some]
        refine ⟨trivial, ?_, trivial⟩
        split
        · rw [(setThresholdFlag_preserves config).2.2.2]; exact h
        · exact h

/-- A config whose active (telegram) channel has both alerts already
fired this cycle, with usage over both limits. -/
def cfgAlerted : Config :=
  { cfgFrame with
    statistics := ⟨bytesToGB, 0, 0, 0, some ⟨2024, 1, 5⟩⟩
    comparison := ⟨"download", 1, 1 / 2, 3 / 4⟩
    message := ⟨"telegram", ⟨true, true, "tok", "chat"⟩,
      ⟨false, false, "url", "app"⟩⟩ }

/-- Witness for `at_most_one_alert` on a config with both flags set. -/
theorem at_most_one_alert_witness :
    ((tickResult cfgAlerted ⟨true, true⟩).thresholdAttempt = false ∧
      activeThresholdFlag (tickResult cfgAlerted ⟨true, true⟩).cfg = true) ∧
    ((tickResult cfgAlerted ⟨true, true⟩).ratioAttempt = false ∧
      activeRatioFlag (tickResult cfgAlerted ⟨true, true⟩).cfg = true ∧
      (tickResult cfgAlerted ⟨true, true⟩).shutdown = false) :=
  ⟨(at_most_one_alert cfgAlerted ⟨true, true⟩).1 (by decide),
   (at_most_one_alert cfgAlerted ⟨true, true⟩).2 (by decide)⟩

/-- If the ratio condition holds and the flag is unset, the tick
invokes the shutdown-warning notifier. -/
theorem tick_ratioAttempt_true (c : Config) (o : Oracle) (v : ℚ)
    (hv : usageValue c = some v)
    (hle : c.comparison.limit * c.comparison.ratio ≤ v)
    (hflag : activeRatioFlag c = false) :
    (tickResult c o).ratioAttempt = true := by
  simp [tickResult, performComparison, hv, hflag, hle]

/-- If the threshold condition holds and the flag is unset, the tick
invokes the threshold notifier. -/
theorem tick_thresholdAttempt_true (c : Config) (o : Oracle) (v : ℚ)
    (hv : usageValue c = some v)
    (hle : c.comparison.limit * c.comparison.threshold ≤ v)
    (hflag : activeThresholdFlag c = false) :
    (tickResult c o).thresholdAttempt = true := by
  simp [tickResult, performComparison, hv, hflag, hle]

/-- When the shutdown-warning delivery fails, the tick leaves the
ratio flag, statistics and comparison unchanged and reaches no
shutdown. -/
theorem tick_ratio_fail (c : Config) (o : Oracle) (v : ℚ)
    (hv : usageValue c = some v) (hdel : o.ratioDelivery = false) :
    activeRatioFlag (tickResult c o).cfg = activeRatioFlag c ∧
    (tickResult c o).shutdown = false ∧
    (tickResult c o).cfg.statistics = c.statistics ∧
    (tickResult c o).cfg.comparison = c.comparison := by
  simp only [tickResult, performComparison, hv, Option.getD_some]
  simp only [hdel, sendMessageOk_false, Bool.and_false, Bool.false_eq_true, if_false]
  split
  · exact ⟨(setThresholdFlag_preserves c).2.2.2, trivial,
      (setThresholdFlag_preserves c).1, (setThresholdFlag_preserves c).2.1⟩
  · exact ⟨rfl, trivial, rfl, rfl⟩

/-- When the threshold delivery fails, the tick leaves the threshold
flag, statistics and comparison unchanged. -/
theorem tick_threshold_fail (c : Config) (o : Oracle) (v : ℚ)
    (hv : usageValue c = some v) (hdel : o.thresholdDelivery = false) :
    activeThresholdFlag (tickResult c o).cfg = activeThresholdFlag c ∧
    (tickResult c o).cfg.statistics = c.statistics ∧
    (tickResult c o).cfg.comparison = c.comparison := by
  simp only [tickResult, performComparison, hv, Option.getD_some]
  simp only [hdel, sendMessageOk_false, Bool.and_false, Bool.false_eq_true, if_false]
  split
  · exact ⟨(setRatioFlag_preserves c).2.2.2,
      (setRatioFlag_preserves c).1, (setRatioFlag_preserves c).2.1⟩
  · exact ⟨rfl, rfl, rfl⟩

/-- C6: on a tick where an alert condition holds, its flag is unset and
delivery fails, the flag stays unset (and for the shutdown warning no
shutdown is reached), so a later tick with the same usage invokes the
notifier for that alert again. -/
theorem retry_on_delivery_failure (config : Config) (o o2 : Oracle) (v : ℚ)
    (hv : usageValue config = some v)
    (hsvc : config.message.service = "telegram" ∨ config.message.service = "gotify") :
    (config.comparison.limit * config.comparison.ratio ≤ v →
      activeRatioFlag config = false → o.ratioDelivery = false →
      (tickResult config o).ratioAttempt = true ∧
      activeRatioFlag (tickResult config o).cfg = false ∧
      (tickResult config o).shutdown = false ∧
      (tickResult (tickResult config o).cfg o2).ratioAttempt = true) ∧
    (config.comparison.limit * config.comparison.threshold ≤ v →
      activeThresholdFlag config = false → o.thresholdDelivery = false →
      (tickResult config o).thresholdAttempt = true ∧
      activeThresholdFlag (tickResult config o).cfg = false ∧
      (tickResult (tickResult config o).cfg o2).thresholdAttempt = true) := by
  constructor
  · intro hle hflag hdel
    obtain ⟨hfl, hsh, hst, hcmp⟩ := tick_ratio_fail config o v hv hdel
    have hv2 : usageValue (tickResult config o).cfg = some v := by
      rw [usageValue_congr _ config hst hcmp]; exact hv
    refine ⟨tick_ratioAttempt_true config o v hv hle hflag, ?_, hsh, ?_⟩
    · rw [hfl]; exact hflag
    · exact tick_ratioAttempt_true _ o2 v hv2 (by rw [hcmp]; exact hle)
        (by rw [hfl]; exact hflag)
  · intro hle hflag hdel
    obtain ⟨hfl, hst, hcmp⟩ := tick_threshold_fail config o v hv hdel
    have hv2 : usageValue (tickResult config o).cfg = some v := by
      rw [usageValue_congr _ config hst hcmp]; exact hv
    refine ⟨tick_thresholdAttempt_true config o v hv hle hflag, ?_, ?_⟩
    · rw [hfl]; exact hflag
    · exact tick_thresholdAttempt_true _ o2 v hv2 (by rw [hcmp]; exact hle)
        (by rw [hfl]; exact hflag)

/-- A config over both limits with no alert fired yet. -/
def cfgHot : Config :=
  { cfgFrame with
    statistics := ⟨bytesToGB, 0, 0, 0, some ⟨2024, 1, 5⟩⟩
    comparison := ⟨"download", 1, 1 / 2, 3 / 4⟩
    message := ⟨"telegram", ⟨false, false, "tok", "chat"⟩,
      ⟨false, false, "url", "app"⟩⟩ }

/-- Witness for `retry_on_delivery_failure`: both deliveries fail on
the first tick, and the second tick retries both alerts. -/
theorem retry_on_delivery_failure_witness :
    ((tickResult cfgHot ⟨false, false⟩).ratioAttempt = true ∧
      activeRatioFlag (tickResult cfgHot ⟨false, false⟩).cfg = false ∧
      (tickResult cfgHot ⟨false, false⟩).shutdown = false ∧
      (tickResult (tickResult cfgHot ⟨false, false⟩).cfg ⟨true, true⟩).ratioAttempt = true) ∧
    ((tickResult cfgHot ⟨false, false⟩).thresholdAttempt = true ∧
      activeThresholdFlag (tickResult cfgHot ⟨false, false⟩).cfg = false ∧
      (tickResult (tickResult cfgHot ⟨false, false⟩).cfg ⟨true, true⟩).thresholdAttempt = true) := by
  have hv : usageValue cfgHot = some 1 := by
    norm_num [usageValue, cfgHot, cfgFrame, bytesToGB]
  have h := retry_on_delivery_failure cfgHot ⟨false, false⟩ ⟨true, true⟩ 1 hv
    (Or.inl rfl)
  exact ⟨h.1 (by norm_num [cfgHot, cfgFrame]) (by decide) rfl,
         h.2 (by norm_num [cfgHot, cfgFrame]) (by decide) rfl⟩

/-- A config with an invalid comparison category. -/
def cfgBadCategory : Config :=
  { cfgFrame with
    comparison := ⟨"wrong", 1, 1 / 2, 3 / 4⟩ }

/-- A config with a malformed channel selection and usage over the
threshold limit. -/
def cfgBadChannel : Config :=
  { cfgFrame with
    statistics := ⟨bytesToGB, 0, 0, 0, some ⟨2024, 1, 5⟩⟩
    comparison := ⟨"download", 1, 1 / 2, 2⟩
    message := ⟨"none", ⟨false, false, "tok", "chat"⟩,
      ⟨false, false, "url", "app"⟩⟩ }

/-- C9 counterexample: with a malformed channel selection ("none") and
usage over the threshold limit, the tick's evaluation is NOT aborted
(`performComparison` returns a result, not the config error) and the
notifier dispatch IS invoked for the threshold alert — `sendMessage`
runs and fails with the unknown-service error instead of being
skipped, contradicting "no notification attempt". -/
theorem config_error_counterexample :
    (performComparison cfgBadChannel ⟨true, true⟩).isSome = true ∧
    (tickResult cfgBadChannel ⟨true, true⟩).thresholdAttempt = true := by
  have hv : usageValue cfgBadChannel = some 1 := by
    norm_num [usageValue, cfgBadChannel, cfgFrame, bytesToGB]
  constructor
  · simp [performComparison, hv]
  · exact tick_thresholdAttempt_true cfgBadChannel ⟨true, true⟩ 1 hv
      (by norm_num [cfgBadChannel, cfgFrame]) (by decide)

/-- C9 amended: an unknown usage category aborts the tick's threshold
evaluation with the error reported and no attempt, flag update or
shutdown; a malformed channel selection does NOT abort the evaluation —
the comparison runs and the notifier dispatch may be invoked, but it
always fails as a configuration error, so no flag is updated and no
shutdown is reached. -/
theorem config_error_amended (config : Config) (o : Oracle) :
    (usageValue config = none →
      performComparison config o = none ∧
      (tickResult config o).cfg = config ∧
      (tickResult config o).thresholdAttempt = false ∧
      (tickResult config o).ratioAttempt = false ∧
      (tickResult config o).shutdown = false) ∧
    (config.message.service ≠ "telegram" → config.message.service ≠ "gotify" →
      (tickResult config o).cfg = config ∧
      (tickResult config o).shutdown = false) := by
  constructor
  · intro hu
    simp [tickResult, performComparison, hu]
  · intro h1 h2
    have hsend : ∀ d, sendMessageOk config d = false := by
      intro d; simp [sendMessageOk, h1, h2]
    cases hu : usageValue config with
    | none => simp [tickResult, performComparison, hu]
    | some v =>
        simp only [tickResult, performComparison, hu, Option.getD_some]
        simp only [hsend, Bool.and_false, Bool.false_eq_true, if_false]
        refine ⟨?_, ?_⟩ <;> trivial

/-- Witness for `config_error_amended`: an invalid category aborts the
tick, and an unknown channel leaves the config unchanged with no
shutdown. -/
theorem config_error_amended_witness :
    (performComparison cfgBadCategory ⟨true, true⟩ = none ∧
      (tickResult cfgBadCategory ⟨true, true⟩).cfg = cfgBadCategory ∧
      (tickResult cfgBadCategory ⟨true, true⟩).thresholdAttempt = false ∧
      (tickResult cfgBadCategory ⟨true, true⟩).ratioAttempt = false ∧
      (tickResult cfgBadCategory ⟨true, true⟩).shutdown = false) ∧
    ((tickResult cfgBadChannel ⟨true, true⟩).cfg = cfgBadChannel ∧
      (tickResult cfgBadChannel ⟨true, true⟩).shutdown = false) :=
  ⟨(config_error_amended cfgBadCategory ⟨true, true⟩).1 (by decide),
   (config_error_amended cfgBadChannel ⟨true, true⟩).2 (by decide) (by decide)⟩
